import Mathlib

/-!
Verification of `vtkWarpTransform.cxx` (VTK contrib): a Newton-method
numerical inverter for abstract 3-D warp transforms.

The C++ class is abstract: the concrete forward transform is supplied by a
subclass through the virtual methods `ForwardTransformPoint` and
`ForwardTransformDerivative`, each existing in a `float` and a `double`
overload.  We embed a transform as a structure of four function fields
(the four virtuals), with both precisions idealized as exact rationals `ℚ`
(doubles carry no rounding in this model; the float/double distinction is
kept structurally, as separate function fields, because the C++ overloads
are independent virtual functions).

Mutable object state (`InverseFlag`, `InverseTolerance`,
`InverseIterations`, and the modification time bumped by `Modified()`) is
a `WarpState` record passed explicitly.  The evaluation methods of the
source perform no member writes, so they are embedded as functions that
read the state; stateful wrappers returning the (unchanged) state are
provided to make that observation a theorem.
-/

set_option autoImplicit false

namespace VtkWarp

/-- A 3-vector of (idealized, exact) floating point coordinates. -/
structure Vec3 where
  x : ℚ
  y : ℚ
  z : ℚ
  deriving DecidableEq

/-- A 3×3 matrix of coordinates, row-major as in the C++ `double [3][3]`. -/
structure Mat3 where
  m00 : ℚ
  m01 : ℚ
  m02 : ℚ
  m10 : ℚ
  m11 : ℚ
  m12 : ℚ
  m20 : ℚ
  m21 : ℚ
  m22 : ℚ
  deriving DecidableEq

namespace Vec3

/-- Componentwise difference of two vectors. -/
def sub (a b : Vec3) : Vec3 :=
  ⟨a.x - b.x, a.y - b.y, a.z - b.z⟩

/-- Dot product. -/
def dot (a b : Vec3) : ℚ :=
  a.x * b.x + a.y * b.y + a.z * b.z

/-- Sum of squared components, `|a|²`. -/
def normSq (a : Vec3) : ℚ :=
  dot a a

/-- Scale a vector by a scalar. -/
def smul (c : ℚ) (a : Vec3) : Vec3 :=
  ⟨c * a.x, c * a.y, c * a.z⟩

end Vec3

/-- Determinant of a 3×3 matrix. -/
def Mat3.det (m : Mat3) : ℚ :=
  m.m00 * (m.m11 * m.m22 - m.m12 * m.m21)
    - m.m01 * (m.m10 * m.m22 - m.m12 * m.m20)
    + m.m02 * (m.m10 * m.m21 - m.m11 * m.m20)

/-- The 3×3 identity matrix. -/
def Mat3.identity : Mat3 :=
  ⟨1, 0, 0, 0, 1, 0, 0, 0, 1⟩

/-- A diagonal 3×3 matrix. -/
def Mat3.diag (a b c : ℚ) : Mat3 :=
  ⟨a, 0, 0, 0, b, 0, 0, 0, c⟩

/-- Modelled from the spec: `vtkMath::LinearSolve3x3(matrix, rhs)` is an
external trusted utility (its source is not part of this core) that solves
the linear system `matrix · x = rhs`; its behaviour on a singular matrix is
unspecified ("fails/returns undefined behavior contract when `matrix` is
singular").  We model it by Cramer's rule, which returns the exact solution
for every invertible matrix (division by a zero determinant yields the junk
value `0`, standing in for the unspecified singular case). -/
def linearSolve3x3 (m : Mat3) (b : Vec3) : Vec3 :=
  let d := m.det
  ⟨(Mat3.det ⟨b.x, m.m01, m.m02, b.y, m.m11, m.m12, b.z, m.m21, m.m22⟩) / d,
   (Mat3.det ⟨m.m00, b.x, m.m02, m.m10, b.y, m.m12, m.m20, b.z, m.m22⟩) / d,
   (Mat3.det ⟨m.m00, m.m01, b.x, m.m10, m.m11, b.y, m.m20, m.m21, b.z⟩) / d⟩

/-- Modelled from the spec: `vtkMath::Invert3x3(matrix)` is an external
trusted utility (its source is not part of this core) returning the matrix
inverse, with the same unspecified-on-singular contract.  We model it as
the adjugate divided by the determinant. -/
def invert3x3 (m : Mat3) : Mat3 :=
  let d := m.det
  ⟨(m.m11 * m.m22 - m.m12 * m.m21) / d,
   (m.m02 * m.m21 - m.m01 * m.m22) / d,
   (m.m01 * m.m12 - m.m02 * m.m11) / d,
   (m.m12 * m.m20 - m.m10 * m.m22) / d,
   (m.m00 * m.m22 - m.m02 * m.m20) / d,
   (m.m02 * m.m10 - m.m00 * m.m12) / d,
   (m.m10 * m.m21 - m.m11 * m.m20) / d,
   (m.m01 * m.m20 - m.m00 * m.m21) / d,
   (m.m00 * m.m11 - m.m01 * m.m10) / d⟩

/-- An abstract warp transform: the four pure virtual methods a concrete
subclass supplies.  `...D` are the `double` overloads, `...F` the `float`
overloads; in C++ these are independent virtual functions. -/
structure WarpTransform where
  ForwardTransformPointD : Vec3 → Vec3
  ForwardTransformDerivativeD : Vec3 → Vec3 × Mat3
  ForwardTransformPointF : Vec3 → Vec3
  ForwardTransformDerivativeF : Vec3 → Vec3 × Mat3

/-- The mutable members of `vtkWarpTransform`: the mode flag, the solver
configuration, and the modification time bumped by `Modified()`. -/
structure WarpState where
  InverseFlag : Bool
  InverseTolerance : ℚ
  InverseIterations : ℕ
  mtime : ℕ
  deriving DecidableEq

/-- The constructor `vtkWarpTransform::vtkWarpTransform()`. -/
def WarpState.init : WarpState :=
  { InverseFlag := false
    InverseTolerance := 1 / 1000
    InverseIterations := 500
    mtime := 0 }

/-- `vtkWarpTransform::Inverse()`: toggle the flag and call `Modified()`. -/
def WarpState.Inverse (s : WarpState) : WarpState :=
  { s with InverseFlag := !s.InverseFlag, mtime := s.mtime + 1 }

/-- The solver-local state carried across Newton iterations: the current
candidate `inverse`, the residual `deltaP = Forward(inverse) - point`, the
Jacobian `derivative` evaluated at `inverse`, and `errorSquared = |deltaP|²`. -/
structure SolverIter where
  inverse : Vec3
  deltaP : Vec3
  derivative : Mat3
  errorSquared : ℚ
  deriving DecidableEq

/-- The pre-loop phase of `InverseTransformPoint` (lines 156–174): seed the
candidate by reflecting `Forward(point)` through `point`, then evaluate the
forward derivative at the seed and compute the initial residual and error. -/
def solverInit (T : WarpTransform) (point : Vec3) : SolverIter :=
  let fp := T.ForwardTransformPointD point
  let inverse : Vec3 :=
    ⟨fp.x - 2 * (fp.x - point.x),
     fp.y - 2 * (fp.y - point.y),
     fp.z - 2 * (fp.z - point.z)⟩
  let fd := T.ForwardTransformDerivativeD inverse
  let deltaP := Vec3.sub fd.1 point
  { inverse := inverse
    deltaP := deltaP
    derivative := fd.2
    errorSquared := deltaP.normSq }

/-- One iteration of the Newton loop (lines 180–254): take the full Newton
step; if the error increased, backtrack once along the step direction using
the quadratic model with the clamped fraction `f`. -/
def solverStep (T : WarpTransform) (point : Vec3) (s : SolverIter) : SolverIter :=
  let lastErrorSquared := s.errorSquared
  let deltaI := linearSolve3x3 s.derivative s.deltaP
  let lastInverse := s.inverse
  let gradient : Vec3 :=
    ⟨s.deltaP.x * s.derivative.m00 * 2,
     s.deltaP.y * s.derivative.m11 * 2,
     s.deltaP.z * s.derivative.m22 * 2⟩
  let inverse1 := Vec3.sub lastInverse deltaI
  let fd1 := T.ForwardTransformDerivativeD inverse1
  let deltaP1 := Vec3.sub fd1.1 point
  let errorSquared1 := deltaP1.normSq
  if errorSquared1 > lastErrorSquared then
    let lastErrorSquaredD := Vec3.dot gradient deltaI
    let f := lastErrorSquaredD /
      (2 * (errorSquared1 - lastErrorSquared - lastErrorSquaredD))
    let f := if f < 1 / 10 then 1 / 10 else f
    let f := if f > 1 / 2 then 1 / 2 else f
    let inverse2 := Vec3.sub lastInverse (Vec3.smul f deltaI)
    let fd2 := T.ForwardTransformDerivativeD inverse2
    let deltaP2 := Vec3.sub fd2.1 point
    { inverse := inverse2
      deltaP := deltaP2
      derivative := fd2.2
      errorSquared := deltaP2.normSq }
  else
    { inverse := inverse1
      deltaP := deltaP1
      derivative := fd1.2
      errorSquared := errorSquared1 }

/-- The Newton loop `for (i = 0; i < n && errorSquared > toleranceSquared; i++)`,
with the remaining budget as fuel.  Returns the final solver state together
with the number of loop-body executions; the exit value of the C++ counter
`i` equals that number. -/
def solverLoop (T : WarpTransform) (point : Vec3) (tol2 : ℚ) :
    ℕ → SolverIter → SolverIter × ℕ
  | 0, s => (s, 0)
  | n + 1, s =>
    if s.errorSquared > tol2 then
      let r := solverLoop T point tol2 n (solverStep T point s)
      (r.1, r.2 + 1)
    else
      (s, 0)

/-- What a call of the double-precision `InverseTransformPoint` produces:
the output point, the final squared error, the exit value of the loop
counter `i`, the iteration count `i+1` printed by the debug diagnostic, and
whether the non-convergence warning (`i >= InverseIterations`) fired. -/
structure InvResult where
  out : Vec3
  errSq : ℚ
  iters : ℕ
  reportedIterations : ℕ
  warned : Bool
  deriving DecidableEq

/-- `vtkWarpTransform::InverseTransformPoint(const double[3], double[3])`
(lines 145–271): Newton iteration with backtracking, warning when the loop
counter reaches the iteration budget. -/
def InverseTransformPointD (st : WarpState) (T : WarpTransform) (point : Vec3) :
    InvResult :=
  let toleranceSquared := st.InverseTolerance * st.InverseTolerance
  let r := solverLoop T point toleranceSquared st.InverseIterations (solverInit T point)
  { out := r.1.inverse
    errSq := r.1.errorSquared
    iters := r.2
    reportedIterations := r.2 + 1
    warned := decide (r.2 ≥ st.InverseIterations) }

/-- `vtkWarpTransform::InverseTransformPoint(const float[3], float[3])`
(lines 275–288): convert the input to double, call the double-precision
solver, convert the result back (conversions are exact in this model). -/
def InverseTransformPointF (st : WarpState) (T : WarpTransform) (point : Vec3) :
    Vec3 :=
  (InverseTransformPointD st T point).out

/-- `vtkWarpTransform::InternalTransformPoint(const double[3], double[3])`
(lines 84–95): dispatch on the flag. -/
def InternalTransformPointD (st : WarpState) (T : WarpTransform) (input : Vec3) :
    Vec3 :=
  if st.InverseFlag then
    (InverseTransformPointD st T input).out
  else
    T.ForwardTransformPointD input

/-- `vtkWarpTransform::InternalTransformPoint(const float[3], float[3])`
(lines 70–81): dispatch on the flag; the forward branch calls the float
overload of the virtual `ForwardTransformPoint`. -/
def InternalTransformPointF (st : WarpState) (T : WarpTransform) (input : Vec3) :
    Vec3 :=
  if st.InverseFlag then
    InverseTransformPointF st T input
  else
    T.ForwardTransformPointF input

/-- `vtkWarpTransform::InternalTransformDerivative(const double[3], ...)`
(lines 121–139): in inverse mode, take the forward derivative at the input
point, obtain the output point from the inverse solver at that same input,
and invert the Jacobian; otherwise forward directly. -/
def InternalTransformDerivativeD (st : WarpState) (T : WarpTransform)
    (input : Vec3) : Vec3 × Mat3 :=
  if st.InverseFlag then
    let fd := T.ForwardTransformDerivativeD input
    ((InverseTransformPointD st T input).out, invert3x3 fd.2)
  else
    T.ForwardTransformDerivativeD input

/-- `vtkWarpTransform::InternalTransformDerivative(const float[3], ...)`
(lines 100–118): same logic but through the float overloads of the
virtuals (the float `InverseTransformPoint` converts internally). -/
def InternalTransformDerivativeF (st : WarpState) (T : WarpTransform)
    (input : Vec3) : Vec3 × Mat3 :=
  if st.InverseFlag then
    let fd := T.ForwardTransformDerivativeF input
    (InverseTransformPointF st T input, invert3x3 fd.2)
  else
    T.ForwardTransformDerivativeF input

/-! ### Observation helpers

`iterHistory` records the solver state accepted at the end of each executed
Newton iteration (the value of `errorSquared` and of `inverse` at line 255
of the source, once per loop-body execution), `errHistory` its squared
errors.  These recompute the loop trace independently of `solverLoop`. -/

/-- The list of solver states accepted at the end of each executed loop
iteration of `InverseTransformPoint`, in order. -/
def iterHistory (T : WarpTransform) (point : Vec3) (tol2 : ℚ) :
    ℕ → SolverIter → List SolverIter
  | 0, _ => []
  | n + 1, s =>
    if s.errorSquared > tol2 then
      let s2 := solverStep T point s
      s2 :: iterHistory T point tol2 n s2
    else []

/-- The squared errors recorded at the end of each executed loop iteration. -/
def errHistory (T : WarpTransform) (point : Vec3) (tol2 : ℚ) (fuel : ℕ)
    (s : SolverIter) : List ℚ :=
  (iterHistory T point tol2 fuel s).map (fun t => t.errorSquared)

/-- The Newton step `deltaI` of an iteration: the solution of
`derivative · deltaI = deltaP` (line 185). -/
def newtonDeltaI (s : SolverIter) : Vec3 :=
  linearSolve3x3 s.derivative s.deltaP

/-- The squared error produced by the full (undamped) Newton step from `s`
(lines 198–213). -/
def fullStepError (T : WarpTransform) (point : Vec3) (s : SolverIter) : ℚ :=
  (Vec3.sub (T.ForwardTransformDerivativeD (Vec3.sub s.inverse (newtonDeltaI s))).1
    point).normSq

/-- Stated from the spec's words, for comparison with `solverStep`: the
directional derivative estimate `d = gradient ⬝ deltaI` with the diagonal
gradient approximation `gradient_i = 2 * residual_i * Jacobian[i][i]`. -/
def backtrackGradientDot (s : SolverIter) : ℚ :=
  2 * s.deltaP.x * s.derivative.m00 * (newtonDeltaI s).x +
  2 * s.deltaP.y * s.derivative.m11 * (newtonDeltaI s).y +
  2 * s.deltaP.z * s.derivative.m22 * (newtonDeltaI s).z

/-- Stated from the spec's words, for comparison with `solverStep`: the
quadratic-model fractional step `d / (2*(error_new - error_prev - d))`,
clamped into `[0.1, 0.5]`. -/
def backtrackFraction (T : WarpTransform) (point : Vec3) (s : SolverIter) : ℚ :=
  min (max (backtrackGradientDot s /
      (2 * (fullStepError T point s - s.errorSquared - backtrackGradientDot s)))
    (1 / 10)) (1 / 2)

/-- Stated from the spec's words, for comparison with `solverStep`: the
corrected candidate `lastInverse - f * deltaI`. -/
def backtrackPoint (T : WarpTransform) (point : Vec3) (s : SolverIter) : Vec3 :=
  Vec3.sub s.inverse (Vec3.smul (backtrackFraction T point s) (newtonDeltaI s))

/-! ### Call traces

To state how many forward-transform evaluations a phase performs, traced
variants log each call of a forward virtual.  The traced variants compute
the same states as the untraced ones (proved below). -/

/-- A call of one of the double-precision forward virtuals. -/
inductive FwdCall where
  | pointD (arg : Vec3)
  | derivD (arg : Vec3)
  deriving DecidableEq

/-- Whether a logged call is a plain forward-point evaluation. -/
def isPointCall : FwdCall → Bool
  | FwdCall.pointD _ => true
  | FwdCall.derivD _ => false

/-- `solverInit` with its forward-virtual calls logged in order. -/
def solverInitTraced (T : WarpTransform) (point : Vec3) :
    SolverIter × List FwdCall :=
  let fp := T.ForwardTransformPointD point
  let inverse : Vec3 :=
    ⟨fp.x - 2 * (fp.x - point.x),
     fp.y - 2 * (fp.y - point.y),
     fp.z - 2 * (fp.z - point.z)⟩
  let fd := T.ForwardTransformDerivativeD inverse
  let deltaP := Vec3.sub fd.1 point
  ({ inverse := inverse
     deltaP := deltaP
     derivative := fd.2
     errorSquared := deltaP.normSq },
   [FwdCall.pointD point, FwdCall.derivD inverse])

/-- `solverStep` with its forward-virtual calls logged in order. -/
def solverStepTraced (T : WarpTransform) (point : Vec3) (s : SolverIter) :
    SolverIter × List FwdCall :=
  let lastErrorSquared := s.errorSquared
  let deltaI := linearSolve3x3 s.derivative s.deltaP
  let lastInverse := s.inverse
  let gradient : Vec3 :=
    ⟨s.deltaP.x * s.derivative.m00 * 2,
     s.deltaP.y * s.derivative.m11 * 2,
     s.deltaP.z * s.derivative.m22 * 2⟩
  let inverse1 := Vec3.sub lastInverse deltaI
  let fd1 := T.ForwardTransformDerivativeD inverse1
  let deltaP1 := Vec3.sub fd1.1 point
  let errorSquared1 := deltaP1.normSq
  if errorSquared1 > lastErrorSquared then
    let lastErrorSquaredD := Vec3.dot gradient deltaI
    let f := lastErrorSquaredD /
      (2 * (errorSquared1 - lastErrorSquared - lastErrorSquaredD))
    let f := if f < 1 / 10 then 1 / 10 else f
    let f := if f > 1 / 2 then 1 / 2 else f
    let inverse2 := Vec3.sub lastInverse (Vec3.smul f deltaI)
    let fd2 := T.ForwardTransformDerivativeD inverse2
    let deltaP2 := Vec3.sub fd2.1 point
    ({ inverse := inverse2
       deltaP := deltaP2
       derivative := fd2.2
       errorSquared := deltaP2.normSq },
     [FwdCall.derivD inverse1, FwdCall.derivD inverse2])
  else
    ({ inverse := inverse1
       deltaP := deltaP1
       derivative := fd1.2
       errorSquared := errorSquared1 },
     [FwdCall.derivD inverse1])

/-! ### Stateful wrappers

None of the evaluation methods of the source assigns to a member of the
object; only `Inverse()` does.  The wrappers return the state an
evaluation call leaves behind, making that observation statable. -/

/-- `InternalTransformPoint` (double) together with the post-call state. -/
def InternalTransformPointDSt (st : WarpState) (T : WarpTransform)
    (input : Vec3) : Vec3 × WarpState :=
  (InternalTransformPointD st T input, st)

/-- `InternalTransformDerivative` (double) together with the post-call state. -/
def InternalTransformDerivativeDSt (st : WarpState) (T : WarpTransform)
    (input : Vec3) : (Vec3 × Mat3) × WarpState :=
  (InternalTransformDerivativeD st T input, st)

/-- `InverseTransformPoint` (double) together with the post-call state. -/
def InverseTransformPointDSt (st : WarpState) (T : WarpTransform)
    (input : Vec3) : InvResult × WarpState :=
  (InverseTransformPointD st T input, st)

/-! ### Concrete transforms and runs used in witnesses and counterexamples -/

/-- The identity warp: `Forward(X) = X` with the identity Jacobian. -/
def idT : WarpTransform :=
  { ForwardTransformPointD := fun v => v
    ForwardTransformDerivativeD := fun v => (v, Mat3.identity)
    ForwardTransformPointF := fun v => v
    ForwardTransformDerivativeF := fun v => (v, Mat3.identity) }

/-- The uniform scale `Forward(X) = 2X`, Jacobian `2·I`. -/
def T2 : WarpTransform :=
  { ForwardTransformPointD := fun v => ⟨2 * v.x, 2 * v.y, 2 * v.z⟩
    ForwardTransformDerivativeD := fun v => (⟨2 * v.x, 2 * v.y, 2 * v.z⟩, Mat3.diag 2 2 2)
    ForwardTransformPointF := fun v => ⟨2 * v.x, 2 * v.y, 2 * v.z⟩
    ForwardTransformDerivativeF := fun v => (⟨2 * v.x, 2 * v.y, 2 * v.z⟩, Mat3.diag 2 2 2) }

/-- A scalar warp profile acting on the first coordinate.  Only its values
at the five points the solver visits matter; a smooth function with these
values and derivative `1` at each of them exists (Hermite interpolation),
so the run below is realizable by a genuine smooth warp transform. -/
def gEx (x : ℚ) : ℚ :=
  if x = 0 then -1
  else if x = 1 then 2
  else if x = -1 then 1
  else if x = -2 then 5
  else if x = -11 / 10 then 3
  else x

/-- A warp on which a backtracking-corrected step still increases the
recorded squared error: first coordinate follows `gEx` with reported
diagonal Jacobian entry `1`, the other coordinates are constant `0`. -/
def TEx : WarpTransform :=
  { ForwardTransformPointD := fun v => ⟨gEx v.x, 0, 0⟩
    ForwardTransformDerivativeD := fun v => (⟨gEx v.x, 0, 0⟩, Mat3.identity)
    ForwardTransformPointF := fun v => ⟨gEx v.x, 0, 0⟩
    ForwardTransformDerivativeF := fun v => (⟨gEx v.x, 0, 0⟩, Mat3.identity) }

/-- A transform whose float virtuals differ from its double virtuals (as a
C++ subclass may, since the overloads are independent; real subclasses
differ by rounding, exaggerated here to an offset of `1`). -/
def TFD : WarpTransform :=
  { ForwardTransformPointD := fun v => v
    ForwardTransformDerivativeD := fun v => (v, Mat3.identity)
    ForwardTransformPointF := fun v => ⟨v.x + 1, v.y, v.z⟩
    ForwardTransformDerivativeF := fun v => (⟨v.x + 1, v.y, v.z⟩, Mat3.identity) }

/-- Default state with an iteration budget of `2` (`SetInverseIterations(2)`). -/
def stEx : WarpState :=
  { InverseFlag := true, InverseTolerance := 1 / 1000, InverseIterations := 2, mtime := 0 }

/-- Default state with an iteration budget of `1`. -/
def st1 : WarpState :=
  { WarpState.init with InverseIterations := 1 }

/-- Default state with an iteration budget of `2`. -/
def st2 : WarpState :=
  { WarpState.init with InverseIterations := 2 }

/-- The origin, the target point of the `TEx` runs. -/
def pEx : Vec3 := ⟨0, 0, 0⟩

/-- The target point of the `T2` runs (the spec's uniform-scale scenario). -/
def p2 : Vec3 := ⟨4, 2, 6⟩

/-- The solver state accepted at the end of iteration 1 of the run of
`InverseTransformPoint` on `TEx` at target `pEx`: candidate `(-1,0,0)`,
residual `(1,0,0)`, squared error `1`. -/
def s1ex : SolverIter :=
  { inverse := ⟨-1, 0, 0⟩
    deltaP := ⟨1, 0, 0⟩
    derivative := Mat3.identity
    errorSquared := 1 }

/-- The solver state accepted at the end of iteration 2 of the same run
(after the backtracking correction): candidate `(-11/10,0,0)`, residual
`(3,0,0)`, squared error `9`. -/
def s2ex : SolverIter :=
  { inverse := ⟨-11 / 10, 0, 0⟩
    deltaP := ⟨3, 0, 0⟩
    derivative := Mat3.identity
    errorSquared := 9 }

/-- The loop invariant of `InverseTransformPoint`: `deltaP` is the residual
of the forward transform at the current candidate, `errorSquared` its
squared norm, and `derivative` the Jacobian reported at the candidate. -/
def Consistent (T : WarpTransform) (point : Vec3) (s : SolverIter) : Prop :=
  s.deltaP = Vec3.sub (T.ForwardTransformDerivativeD s.inverse).1 point ∧
  s.errorSquared = s.deltaP.normSq ∧
  s.derivative = (T.ForwardTransformDerivativeD s.inverse).2

theorem consistent_init (T : WarpTransform) (point : Vec3) :
    Consistent T point (solverInit T point) :=
  ⟨rfl, rfl, rfl⟩

theorem consistent_step (T : WarpTransform) (point : Vec3) (s : SolverIter) :
    Consistent T point (solverStep T point s) := by
  simp only [solverStep, Consistent]
  split
  · exact ⟨rfl, rfl, rfl⟩
  · exact ⟨rfl, rfl, rfl⟩

theorem consistent_loop (T : WarpTransform) (point : Vec3) (tol2 : ℚ) :
    ∀ (fuel : ℕ) (s : SolverIter), Consistent T point s →
      Consistent T point (solverLoop T point tol2 fuel s).1 := by
  intro fuel
  induction fuel with
  | zero => intro s hs; exact hs
  | succ n ih =>
    intro s hs
    simp only [solverLoop]
    split
    · exact ih _ (consistent_step T point s)
    · exact hs

theorem solverLoop_count_le (T : WarpTransform) (point : Vec3) (tol2 : ℚ) :
    ∀ (fuel : ℕ) (s : SolverIter), (solverLoop T point tol2 fuel s).2 ≤ fuel := by
  intro fuel
  induction fuel with
  | zero => intro s; exact Nat.le_refl 0
  | succ n ih =>
    intro s
    simp only [solverLoop]
    split
    · exact Nat.succ_le_succ (ih _)
    · exact Nat.zero_le _

theorem solverLoop_getLastD (T : WarpTransform) (point : Vec3) (tol2 : ℚ) :
    ∀ (fuel : ℕ) (s : SolverIter),
      (solverLoop T point tol2 fuel s).1 =
        (iterHistory T point tol2 fuel s).getLastD s := by
  intro fuel
  induction fuel with
  | zero => intro s; rfl
  | succ n ih =>
    intro s
    by_cases h : s.errorSquared > tol2
    · simp only [solverLoop, iterHistory, if_pos h]
      rw [List.getLastD_cons]
      exact ih _
    · simp only [solverLoop, iterHistory, if_neg h]
      rfl

theorem solverStepTraced_fst (T : WarpTransform) (point : Vec3) (s : SolverIter) :
    (solverStepTraced T point s).1 = solverStep T point s := by
  simp only [solverStepTraced, solverStep]
  split <;> rfl

theorem clamp_eq (f : ℚ) :
    (if (if f < 1 / 10 then (1 : ℚ) / 10 else f) > 1 / 2 then (1 : ℚ) / 2
      else (if f < 1 / 10 then (1 : ℚ) / 10 else f)) =
      min (max f (1 / 10)) (1 / 2) := by
  rcases lt_or_le f (1 / 10) with h | h
  · rw [if_pos h, if_neg (by norm_num), max_eq_right h.le, min_eq_left (by norm_num)]
  · rw [if_neg (not_lt.mpr h)]
    rcases lt_or_le (1 / 2 : ℚ) f with h2 | h2
    · rw [if_pos h2, max_eq_left h, min_eq_right h2.le]
    · rw [if_neg (not_lt.mpr h2), max_eq_left h, min_eq_left h2]

/-- C2: in inverse mode, `InternalTransformDerivative` — in both its double
and its float overload — returns the `Invert3x3` of the forward Jacobian
evaluated at the input point itself (via the `ForwardTransformDerivative`
overload of the matching precision), paired with the result of the Newton
inverse solver applied to that same input point (for the float overload,
through the float `InverseTransformPoint` shim); in forward mode each
overload returns exactly its `ForwardTransformDerivative` of the input. -/
theorem internalDerivative_mode_dispatch (st : WarpState) (T : WarpTransform)
    (input : Vec3) :
    InternalTransformDerivativeD { st with InverseFlag := true } T input =
      ((InverseTransformPointD { st with InverseFlag := true } T input).out,
        invert3x3 (T.ForwardTransformDerivativeD input).2) ∧
    InternalTransformDerivativeD { st with InverseFlag := false } T input =
      T.ForwardTransformDerivativeD input ∧
    InternalTransformDerivativeF { st with InverseFlag := true } T input =
      (InverseTransformPointF { st with InverseFlag := true } T input,
        invert3x3 (T.ForwardTransformDerivativeF input).2) ∧
    InternalTransformDerivativeF { st with InverseFlag := false } T input =
      T.ForwardTransformDerivativeF input := by
  refine ⟨?_, ?_, ?_, ?_⟩ <;>
    simp [InternalTransformDerivativeD, InternalTransformDerivativeF]

/-- C6: the solver's initial candidate is `2·P - Forward(P)` (the forward
image of `P` reflected through `P`), and the pre-loop phase performs
exactly one plain forward-point evaluation (its other forward call is the
derivative evaluation at the seed). -/
theorem seed_reflection (T : WarpTransform) (p : Vec3) :
    (solverInit T p).inverse = Vec3.sub (Vec3.smul 2 p) (T.ForwardTransformPointD p) ∧
    (solverInitTraced T p).1 = solverInit T p ∧
    (solverInitTraced T p).2 =
      [FwdCall.pointD p, FwdCall.derivD (solverInit T p).inverse] ∧
    List.countP isPointCall (solverInitTraced T p).2 = 1 := by
  refine ⟨?_, rfl, rfl, ?_⟩
  · simp only [solverInit, Vec3.sub, Vec3.smul, Vec3.mk.injEq]
    refine ⟨by ring, by ring, by ring⟩
  · rfl

/-- C7: `Inverse()` is a pure toggle of the mode flag: applying it twice
restores the flag (and the solver configuration), outputs of every
evaluation entry point are identical to those of the untouched instance,
and evaluation calls leave the object state unchanged. -/
theorem inverse_involution (st : WarpState) (T : WarpTransform) (x : Vec3) :
    ((st.Inverse).Inverse).InverseFlag = st.InverseFlag ∧
    (st.Inverse).InverseFlag = !st.InverseFlag ∧
    ((st.Inverse).Inverse).InverseTolerance = st.InverseTolerance ∧
    ((st.Inverse).Inverse).InverseIterations = st.InverseIterations ∧
    InternalTransformPointD ((st.Inverse).Inverse) T x = InternalTransformPointD st T x ∧
    InternalTransformPointF ((st.Inverse).Inverse) T x = InternalTransformPointF st T x ∧
    InternalTransformDerivativeD ((st.Inverse).Inverse) T x =
      InternalTransformDerivativeD st T x ∧
    InternalTransformDerivativeF ((st.Inverse).Inverse) T x =
      InternalTransformDerivativeF st T x ∧
    (InternalTransformPointDSt st T x).2 = st ∧
    (InternalTransformDerivativeDSt st T x).2 = st ∧
    (InverseTransformPointDSt st T x).2 = st := by
  refine ⟨?_, rfl, rfl, rfl, ?_, ?_, ?_, ?_, rfl, rfl, rfl⟩ <;>
    simp [WarpState.Inverse, InternalTransformPointD, InternalTransformPointF,
      InternalTransformDerivativeD, InternalTransformDerivativeF,
      InverseTransformPointD, InverseTransformPointF, Bool.not_not]

/-- C8 (amended): the float `InverseTransformPoint` is exactly
convert-to-double, run the double solver, convert back (conversions are
exact in this model), so no solver state exists in narrow precision; but
the float `InternalTransformPoint` and `InternalTransformDerivative` call
the float forward virtuals directly, converting only inside the nested
inverse-solver call. -/
theorem narrow_precision_paths (st : WarpState) (T : WarpTransform) (p : Vec3) :
    InverseTransformPointF st T p = (InverseTransformPointD st T p).out ∧
    InternalTransformPointF { st with InverseFlag := false } T p =
      T.ForwardTransformPointF p ∧
    InternalTransformPointF { st with InverseFlag := true } T p =
      (InverseTransformPointD { st with InverseFlag := true } T p).out ∧
    InternalTransformDerivativeF { st with InverseFlag := true } T p =
      ((InverseTransformPointD { st with InverseFlag := true } T p).out,
        invert3x3 (T.ForwardTransformDerivativeF p).2) := by
  refine ⟨rfl, ?_, ?_, ?_⟩ <;>
    simp [InternalTransformPointF, InternalTransformDerivativeF, InverseTransformPointF]

/-- C8 (counterexample): for `InternalTransformPoint` the narrow-precision
path is not convert–compute–convert over the wide implementation: on a
transform whose float forward virtual differs from its double one, the
float entry point (which calls the float virtual directly) disagrees with
the double implementation, although the model's conversions are exact. -/
theorem narrow_not_convert_compute_convert_cex :
    InternalTransformPointF WarpState.init TFD ⟨0, 0, 0⟩ ≠
      InternalTransformPointD WarpState.init TFD ⟨0, 0, 0⟩ := by
  norm_num [InternalTransformPointF, InternalTransformPointD, TFD,
    WarpState.init, Vec3.mk.injEq]

/-- C1: whenever `InverseTransformPoint` (double) ends with its squared
error at or below the squared tolerance, the forward image of the returned
point is within tolerance of the target point (the hypothesis `hc` states
that the point part of `ForwardTransformDerivative` computes the same
forward transform as `ForwardTransformPoint`, which is the documented
contract of the two virtuals). -/
theorem converged_roundTrip (T : WarpTransform) (st : WarpState) (p : Vec3)
    (hc : ∀ v, T.ForwardTransformPointD v = (T.ForwardTransformDerivativeD v).1)
    (h : (InverseTransformPointD st T p).errSq ≤
      st.InverseTolerance * st.InverseTolerance) :
    (Vec3.sub (T.ForwardTransformPointD (InverseTransformPointD st T p).out) p).normSq ≤
      st.InverseTolerance * st.InverseTolerance := by
  obtain ⟨hdp, herr, -⟩ :=
    consistent_loop T p (st.InverseTolerance * st.InverseTolerance)
      st.InverseIterations (solverInit T p) (consistent_init T p)
  show (Vec3.sub (T.ForwardTransformPointD
      (solverLoop T p (st.InverseTolerance * st.InverseTolerance)
        st.InverseIterations (solverInit T p)).1.inverse) p).normSq ≤
    st.InverseTolerance * st.InverseTolerance
  rw [hc, ← hdp, ← herr]
  exact h

/-- Witness for C1 at the identity transform and target `(1,2,3)` with an
iteration budget of `1`: the solver converges (error `0`) and the forward
image of the output is within tolerance. -/
theorem converged_roundTrip_witness :
    (InverseTransformPointD st1 idT ⟨1, 2, 3⟩).errSq ≤
      st1.InverseTolerance * st1.InverseTolerance ∧
    (Vec3.sub (idT.ForwardTransformPointD
        (InverseTransformPointD st1 idT ⟨1, 2, 3⟩).out) ⟨1, 2, 3⟩).normSq ≤
      st1.InverseTolerance * st1.InverseTolerance :=
  ⟨by norm_num [InverseTransformPointD, solverLoop, solverInit, st1, WarpState.init,
      idT, Vec3.sub, Vec3.normSq, Vec3.dot, Mat3.identity],
   converged_roundTrip idT st1 ⟨1, 2, 3⟩ (fun _ => rfl)
    (by norm_num [InverseTransformPointD, solverLoop, solverInit, st1, WarpState.init,
      idT, Vec3.sub, Vec3.normSq, Vec3.dot, Mat3.identity])⟩

/-- C9: if the forward transform is the identity with identity Jacobian,
the inverse solver returns exactly `P`, and reports convergence in exactly
one iteration (the `i+1` count of the source's diagnostic; the loop body
itself never runs, the seed already being exact). -/
theorem identity_transform_one_iteration (T : WarpTransform)
    (hpt : ∀ v, T.ForwardTransformPointD v = v)
    (hdv : ∀ v, T.ForwardTransformDerivativeD v = (v, Mat3.identity))
    (st : WarpState) (p : Vec3) :
    (InverseTransformPointD st T p).out = p ∧
    (InverseTransformPointD st T p).reportedIterations = 1 := by
  have hinit : solverInit T p = ⟨p, ⟨0, 0, 0⟩, Mat3.identity, 0⟩ := by
    simp [solverInit, hpt, hdv, Vec3.sub, Vec3.normSq, Vec3.dot,
      SolverIter.mk.injEq, Vec3.mk.injEq]
  have hloop : solverLoop T p (st.InverseTolerance * st.InverseTolerance)
      st.InverseIterations (solverInit T p) = (solverInit T p, 0) := by
    cases hn : st.InverseIterations with
    | zero => rfl
    | succ m =>
      simp only [solverLoop]
      rw [if_neg (by rw [hinit]; exact not_lt.mpr (mul_self_nonneg st.InverseTolerance))]
  constructor
  · simp only [InverseTransformPointD]
    rw [hloop, hinit]
  · simp only [InverseTransformPointD]
    rw [hloop]

/-- Witness for C9: the identity warp at target `(1,2,3)` with the default
configuration. -/
theorem identity_transform_one_iteration_witness :
    (InverseTransformPointD WarpState.init idT ⟨1, 2, 3⟩).out = ⟨1, 2, 3⟩ ∧
    (InverseTransformPointD WarpState.init idT ⟨1, 2, 3⟩).reportedIterations = 1 :=
  identity_transform_one_iteration idT (fun _ => rfl) (fun _ => rfl)
    WarpState.init ⟨1, 2, 3⟩

/-- C10: the non-convergence warning fires exactly when the exit value of
the loop counter reaches the iteration budget, regardless of the final
error: on the uniform-scale run that meets tolerance on its single,
budget-exhausting iteration the warning still fires, while the same run
under a budget of two iterations meets tolerance early and does not warn. -/
theorem warning_iff_budget_reached (T : WarpTransform) (st : WarpState) (p : Vec3) :
    ((InverseTransformPointD st T p).warned = true ↔
      (InverseTransformPointD st T p).iters = st.InverseIterations) ∧
    (InverseTransformPointD st1 T2 p2).warned = true ∧
    (InverseTransformPointD st1 T2 p2).errSq ≤
      st1.InverseTolerance * st1.InverseTolerance ∧
    (InverseTransformPointD st2 T2 p2).warned = false ∧
    (InverseTransformPointD st2 T2 p2).errSq ≤
      st2.InverseTolerance * st2.InverseTolerance := by
  refine ⟨?_, ?_, ?_, ?_, ?_⟩
  · simp only [InverseTransformPointD, decide_eq_true_eq, ge_iff_le]
    exact ⟨fun h => Nat.le_antisymm (solverLoop_count_le T p _ st.InverseIterations _) h,
      fun h => h.ge⟩
  all_goals
    norm_num [InverseTransformPointD, solverLoop, solverStep, solverInit, st1, st2,
      WarpState.init, T2, p2, Vec3.sub, Vec3.dot, Vec3.normSq, Vec3.smul,
      Mat3.det, Mat3.diag, linearSolve3x3]

/-- C3 (counterexample): the accepted squared-error sequence of a single
inversion call is not always non-increasing: on the warp `TEx` at target
`(0,0,0)` with budget 2, the recorded errors are `[1, 9]` — iteration 2
invokes the backtracking correction, and the corrected candidate still has
a larger error than iteration 1, which the loop records as-is. -/
theorem errorSequence_not_monotone_cex :
    ¬ List.Chain' (fun a b => b ≤ a)
      (errHistory TEx pEx (stEx.InverseTolerance * stEx.InverseTolerance)
        stEx.InverseIterations (solverInit TEx pEx)) := by
  have hh : errHistory TEx pEx (stEx.InverseTolerance * stEx.InverseTolerance)
      stEx.InverseIterations (solverInit TEx pEx) = [1, 9] := by
    norm_num [errHistory, iterHistory, solverStep, solverInit, stEx, TEx, pEx, gEx,
      Vec3.sub, Vec3.dot, Vec3.normSq, Vec3.smul, Mat3.det, Mat3.identity,
      linearSolve3x3]
  rw [hh]
  norm_num [List.chain'_cons, List.chain'_singleton]

/-- C3 (amended): the recorded error is non-increasing at every iteration
whose full Newton step does not increase the error; at an iteration where
it does, the single backtracking-corrected candidate's error is recorded
as-is and may exceed the previous error. -/
theorem error_nonincreasing_without_backtrack (T : WarpTransform) (point : Vec3)
    (s : SolverIter) (h : fullStepError T point s ≤ s.errorSquared) :
    (solverStep T point s).errorSquared ≤ s.errorSquared := by
  simp only [solverStep]
  split
  · rename_i hgt
    exact absurd hgt (not_lt.mpr h)
  · rename_i hle
    exact not_lt.mp hle

/-- Witness for the amended C3 on the uniform-scale run: the full Newton
step from the seed does not increase the error, and the recorded error of
that iteration is no larger than the seed error. -/
theorem error_nonincreasing_without_backtrack_witness :
    fullStepError T2 p2 (solverInit T2 p2) ≤ (solverInit T2 p2).errorSquared ∧
    (solverStep T2 p2 (solverInit T2 p2)).errorSquared ≤
      (solverInit T2 p2).errorSquared :=
  ⟨by norm_num [fullStepError, newtonDeltaI, solverInit, T2, p2, Vec3.sub, Vec3.dot,
      Vec3.normSq, Mat3.det, Mat3.diag, linearSolve3x3],
   error_nonincreasing_without_backtrack T2 p2 (solverInit T2 p2)
    (by norm_num [fullStepError, newtonDeltaI, solverInit, T2, p2, Vec3.sub, Vec3.dot,
      Vec3.normSq, Mat3.det, Mat3.diag, linearSolve3x3])⟩

/-- C4 (amended): `InverseTransformPoint` always returns a point — the
candidate accepted at the end of the last executed iteration, i.e. the
last entry of the iteration history (the seed when no iteration ran),
together with that candidate's squared error — and budget exhaustion is
surfaced only through the warning (fired exactly when the exit counter
reaches the budget). -/
theorem exhaustion_returns_last_candidate (T : WarpTransform) (st : WarpState)
    (p : Vec3) :
    (InverseTransformPointD st T p).out =
      ((iterHistory T p (st.InverseTolerance * st.InverseTolerance)
          st.InverseIterations (solverInit T p)).getLastD (solverInit T p)).inverse ∧
    (InverseTransformPointD st T p).errSq =
      ((iterHistory T p (st.InverseTolerance * st.InverseTolerance)
          st.InverseIterations (solverInit T p)).getLastD (solverInit T p)).errorSquared ∧
    (InverseTransformPointD st T p).warned =
      decide ((InverseTransformPointD st T p).iters ≥ st.InverseIterations) := by
  refine ⟨?_, ?_, rfl⟩ <;>
    simp only [InverseTransformPointD] <;>
      rw [solverLoop_getLastD]

/-- C4 (counterexample): on the `TEx` run with budget 2 the budget is
exhausted and the warning fires, but the returned point is the final
candidate (squared error `9`), not the best candidate found — the
candidate accepted at iteration 1 is in the history with squared error `1`. -/
theorem returned_not_best_cex :
    (InverseTransformPointD stEx TEx pEx).warned = true ∧
    s1ex ∈ iterHistory TEx pEx (stEx.InverseTolerance * stEx.InverseTolerance)
      stEx.InverseIterations (solverInit TEx pEx) ∧
    s1ex.errorSquared < (InverseTransformPointD stEx TEx pEx).errSq := by
  have hh : iterHistory TEx pEx (stEx.InverseTolerance * stEx.InverseTolerance)
      stEx.InverseIterations (solverInit TEx pEx) = [s1ex, s2ex] := by
    norm_num [iterHistory, solverStep, solverInit, stEx, TEx, pEx, gEx, s1ex, s2ex,
      Vec3.sub, Vec3.dot, Vec3.normSq, Vec3.smul, Mat3.det, Mat3.identity,
      linearSolve3x3, SolverIter.mk.injEq, Vec3.mk.injEq, Mat3.mk.injEq]
  refine ⟨?_, ?_, ?_⟩
  · norm_num [InverseTransformPointD, solverLoop, solverStep, solverInit, stEx, TEx,
      pEx, gEx, Vec3.sub, Vec3.dot, Vec3.normSq, Vec3.smul, Mat3.det, Mat3.identity,
      linearSolve3x3]
  · rw [hh]
    exact List.mem_cons_self _ _
  · norm_num [InverseTransformPointD, solverLoop, solverStep, solverInit, stEx, TEx,
      pEx, gEx, s1ex, Vec3.sub, Vec3.dot, Vec3.normSq, Vec3.smul, Mat3.det,
      Mat3.identity, linearSolve3x3]

/-- C5: when the full Newton step strictly increases the squared error, the
candidate accepted for that iteration is `lastInverse - f·deltaI` with `f`
the quadratic-model fraction `d/(2·(err_new - err_prev - d))` — `d` the
diagonal-gradient directional derivative — clamped into `[0.1, 0.5]`; and
the iteration evaluates exactly one corrected candidate: its forward-call
trace is the full-step evaluation followed by a single corrected-candidate
evaluation (no inner retry loop). -/
theorem backtrack_step_formula (T : WarpTransform) (point : Vec3) (s : SolverIter)
    (h : fullStepError T point s > s.errorSquared) :
    (solverStep T point s).inverse = backtrackPoint T point s ∧
    (solverStepTraced T point s).2 =
      [FwdCall.derivD (Vec3.sub s.inverse (newtonDeltaI s)),
       FwdCall.derivD (backtrackPoint T point s)] := by
  have hd : Vec3.dot
      ⟨s.deltaP.x * s.derivative.m00 * 2, s.deltaP.y * s.derivative.m11 * 2,
        s.deltaP.z * s.derivative.m22 * 2⟩ (linearSolve3x3 s.derivative s.deltaP) =
      backtrackGradientDot s := by
    simp only [Vec3.dot, backtrackGradientDot, newtonDeltaI]
    ring
  have main : solverStepTraced T point s =
      ({ inverse := backtrackPoint T point s
         deltaP := Vec3.sub (T.ForwardTransformDerivativeD (backtrackPoint T point s)).1 point
         derivative := (T.ForwardTransformDerivativeD (backtrackPoint T point s)).2
         errorSquared := (Vec3.sub (T.ForwardTransformDerivativeD
            (backtrackPoint T point s)).1 point).normSq },
       [FwdCall.derivD (Vec3.sub s.inverse (newtonDeltaI s)),
        FwdCall.derivD (backtrackPoint T point s)]) := by
    simp only [solverStepTraced]
    split
    · simp only [backtrackPoint, backtrackFraction, fullStepError, newtonDeltaI]
      rw [hd, clamp_eq]
    · rename_i hng
      exact absurd h hng
  constructor
  · rw [← solverStepTraced_fst, main]
  · rw [main]

/-- Witness for C5 at the `TEx` run, iteration 2: from the state accepted
at the end of iteration 1 the full Newton step increases the error
(`25 > 1`), and the accepted candidate is the clamped fractional step. -/
theorem backtrack_step_formula_witness :
    fullStepError TEx pEx s1ex > s1ex.errorSquared ∧
    (solverStep TEx pEx s1ex).inverse = backtrackPoint TEx pEx s1ex :=
  ⟨by norm_num [fullStepError, newtonDeltaI, s1ex, TEx, pEx, gEx, Vec3.sub, Vec3.dot,
      Vec3.normSq, Mat3.det, Mat3.identity, linearSolve3x3],
   (backtrack_step_formula TEx pEx s1ex
    (by norm_num [fullStepError, newtonDeltaI, s1ex, TEx, pEx, gEx, Vec3.sub, Vec3.dot,
      Vec3.normSq, Mat3.det, Mat3.identity, linearSolve3x3])).1⟩

end VtkWarp
